import Mathlib

/-!
Shallow embedding of `src/streamlit_app.py` (Toronto crime-rate dashboard).

Conventions of the embedding:
* A pandas DataFrame row becomes a Lean structure; the nullable `Year`
  column (dtype `Int64` after `pd.to_numeric(..., errors := coerce)` and
  `astype Int64`) is `Option Int` (`none` = `pd.NA`, covering both a missing
  and an unparsable year value); the `Total_Crimes` column is `Option Rat`
  (`none` = `NaN`).
* Boolean masks built from a nullable column treat `NA` as `False`
  (documented pandas behaviour for `BooleanArray` indexing), so a row with
  `Year = none` never matches a `Year == y` filter.
* `Series.apply` passes `pd.NA` itself to the lambda for missing entries,
  and `pd.NA == 2025` is `pd.NA`, whose use in `if` raises
  `TypeError: boolean value of NA is ambiguous`; the embedding models this
  reachable exception as an explicit `fault` outcome.
* Python float arithmetic is modelled with exact rationals, and the
  `f-string` fixed-point formats (`:,.0f` and `:,.1f`) with round-half-even
  plus comma grouping of the integer part.
-/

/-- One row of the normalized table (`crime_df` after `get_crime_data`). -/
structure CrimeRecord where
  area_name : String
  year : Option Int
  total_crimes : Option Rat
  data_type : String
deriving DecidableEq, Repr

/-- One row of the CSV as read by `pd.read_csv`, with the `Year` column
already coerced by `pd.to_numeric(..., errors := coerce).astype Int64`
(`none` for a missing or unparsable year).  The `data_type` field is
meaningful only when the containing table has a `Data_Type` column. -/
structure RawRow where
  area_name : String
  year : Option Int
  total_crimes : Option Rat
  data_type : String
deriving DecidableEq, Repr

/-- The parsed CSV: whether a `Data_Type` column is present, and the rows. -/
structure InputTable where
  hasDataType : Bool
  rows : List RawRow
deriving DecidableEq, Repr

/-- Outcome of running `get_crime_data`: either an uncaught exception
escapes (`fault`), or it returns a table, `errorReported` recording whether
`st.error` was called. -/
inductive LoadResult where
  | fault : LoadResult
  | ok : List CrimeRecord → Bool → LoadResult
deriving DecidableEq, Repr

/-- The lambda of line 42:
`lambda x: (Forecast if x == 2025 else Historical)` applied to one element
of the nullable `Year` column.  On `pd.NA` the comparison yields `pd.NA`
and the conditional raises `TypeError`, modelled as `Except.error`. -/
def deriveDataType (y : Option Int) : Except Unit String :=
  match y with
  | none => .error ()
  | some v => .ok (if v = 2025 then "Forecast" else "Historical")

/-- `crime_df[Data_Type] = crime_df[Year].apply(lambda ...)` over the rows
kept after `dropna`: the first `pd.NA` year raises. -/
def mapDerive : List RawRow → Except Unit (List CrimeRecord)
  | [] => .ok []
  | r :: rs =>
    match deriveDataType r.year with
    | .error e => .error e
    | .ok d =>
      match mapDerive rs with
      | .error e => .error e
      | .ok rest => .ok (⟨r.area_name, r.year, r.total_crimes, d⟩ :: rest)

/-- `get_crime_data` (lines 19-44).  `input = none` models
`FileNotFoundError` from `pd.read_csv`: `st.error` is called and an empty
frame is returned.  Otherwise rows whose `Total_Crimes` is `NaN` are
dropped (line 38); then, only if no `Data_Type` column exists, the label is
derived from `Year` (lines 41-42), which faults on a null year. -/
def get_crime_data (input : Option InputTable) : LoadResult :=
  match input with
  | none => .ok [] true
  | some t =>
    let kept := t.rows.filter (fun r => r.total_crimes.isSome)
    if t.hasDataType then
      .ok (kept.map (fun r => ⟨r.area_name, r.year, r.total_crimes, r.data_type⟩)) false
    else
      match mapDerive kept with
      | .ok rows => .ok rows false
      | .error _ => .fault

/-- What the module-level code after the load does (lines 46-50 and
onwards): an escaped exception crashes the script; an empty table triggers
`st.stop()` before any chart; otherwise rendering proceeds. -/
inductive Phase where
  | crashed : Phase
  | halted : Phase
  | rendering : Phase
deriving DecidableEq, Repr

/-- Lines 46-50: `crime_df = get_crime_data()` then
`if crime_df.empty: st.stop()`. -/
def appPhase : LoadResult → Phase
  | .fault => .crashed
  | .ok tbl _ => if tbl.isEmpty then .halted else .rendering

/-- `filtered_crime_df` (lines 99-103): keep rows whose `AREA_NAME` is in
`selected_hoods` and whose `Year` lies in `[from_year, to_year]`.  A null
`Year` makes both comparisons `NA`, treated as `False` by the mask. -/
def filtered_crime_df (crime_df : List CrimeRecord) (from_year to_year : Int)
    (selected_hoods : List String) : List CrimeRecord :=
  crime_df.filter (fun r =>
    selected_hoods.contains r.area_name &&
    (match r.year with
     | some y => decide (y ≤ to_year) && decide (from_year ≤ y)
     | none => false))

/-- Round-half-even of a rational, the rounding used by Python fixed-point
formatting. -/
def roundHalfEven (q : Rat) : Int :=
  let f := ⌊q⌋
  let frac := q - f
  if frac < 1/2 then f
  else if 1/2 < frac then f + 1
  else if f % 2 = 0 then f else f + 1

/-- Insert a comma after every third digit of a reversed digit list. -/
def group3 : List Char → List Char
  | a :: b :: c :: d :: rest => a :: b :: c :: ',' :: group3 (d :: rest)
  | l => l

/-- Comma-group the decimal digits of a natural number, as Python format
`,` does for the integer part. -/
def commaGroup (n : Nat) : String :=
  String.mk ((group3 (toString n).data.reverse).reverse)

/-- Python `f-string` format `:,.0f` on an exact rational. -/
def formatFixed0 (q : Rat) : String :=
  (if q < 0 then "-" else "") ++ commaGroup (roundHalfEven |q|).toNat

/-- Python `f-string` format `:,.1f` on an exact rational. -/
def formatFixed1 (q : Rat) : String :=
  let m := (roundHalfEven (|q| * 10)).toNat
  (if q < 0 then "-" else "") ++ commaGroup (m / 10) ++ "." ++ toString (m % 10)

/-- Lines 200-201 and 216-221: filter `crime_df` to the rows of `year`,
restrict to `AREA_NAME == hood`, take `iloc 0` of `Total_Crimes` if the
selection is nonempty, else `None`.  The outer `Option` is the
emptiness check, the inner one is a `NaN` value. -/
def lookupCrime (crime_df : List CrimeRecord) (year : Int) (hood : String) :
    Option (Option Rat) :=
  ((((crime_df.filter (fun r => r.year = some year)).filter
      (fun r => r.area_name = hood)).head?).map (fun r => r.total_crimes))

/-- The three arguments of the `st.metric` call (lines 243-248). -/
structure Metric where
  value : String
  delta : String
  delta_color : String
deriving DecidableEq, Repr

/-- The metric-comparison body for one `hood` (lines 212-248), with the two
comparison years as parameters (`START_COMPARE_YEAR` and
`END_COMPARE_YEAR` in the script).  `first_crime is None or
math.isnan(first_crime)` collapses to `Option.join = none`. -/
def computeMetric (crime_df : List CrimeRecord) (hood : String)
    (baseYear targetYear : Int) : Metric :=
  let first_crime := (lookupCrime crime_df baseYear hood).join
  let last_crime := (lookupCrime crime_df targetYear hood).join
  match last_crime with
  | none => ⟨"N/A", "n/a", "off"⟩
  | some lc =>
    let lcStr := formatFixed0 lc
    match first_crime with
    | none => ⟨lcStr, "New Data", "off"⟩
    | some fc =>
      if fc = 0 then ⟨lcStr, "New Data", "off"⟩
      else
        let percent_change := (lc - fc) / fc * 100
        ⟨lcStr, formatFixed1 percent_change ++ "%",
          if 0 < percent_change then "inverse" else "normal"⟩

/-- The directional trend of the spec, read off the `delta_color` the
script passes to `st.metric`: `off` = no trend, `inverse` = up
(crime increase shown red), `normal` = down. -/
inductive Trend where
  | up : Trend
  | down : Trend
  | none : Trend
deriving DecidableEq, Repr

/-- Spec reading of the color hint. -/
def trendOf (m : Metric) : Trend :=
  if m.delta_color = "off" then .none
  else if m.delta_color = "inverse" then .up
  else .down

/-- `comparison_hoods` (lines 192-196): the set union of the multiselect
hoods and the single bar-chart hood, sorted.  Python `sorted` over a `set`
is modelled by insertion sort over the deduplicated list. -/
def comparison_hoods (selected_hoods : List String) (bar_selected_hood : String) :
    List String :=
  List.insertionSort (fun a b => a ≤ b) ((selected_hoods ++ [bar_selected_hood]).dedup)

/-! ## Theorems -/

/-! Evaluation helpers for the formatting functions: the rational
arithmetic inside them is proved out with `norm_num` rather than kernel
reduction. -/

/-- `roundHalfEven` is the identity on integers. -/
theorem roundHalfEven_intCast (n : Int) : roundHalfEven ((n : Rat)) = n := by
  unfold roundHalfEven
  simp only [Int.floor_intCast, sub_self]
  rw [if_pos (by norm_num : (0 : Rat) < 1/2)]

/-- `formatFixed0` of a natural value is its comma-grouped digit string. -/
theorem formatFixed0_nat (n : Nat) : formatFixed0 ((n : Rat)) = commaGroup n := by
  have h0 : (0 : Rat) ≤ (n : Rat) := by positivity
  have h : roundHalfEven (|(n : Rat)|) = (n : Int) := by
    rw [abs_of_nonneg h0, show ((n : Rat)) = (((n : Int) : Rat)) by push_cast; rfl,
      roundHalfEven_intCast]
  unfold formatFixed0
  rw [if_neg (not_lt.mpr h0), h]
  simp

/-- `formatFixed1` of a nonnegative rational via its rounded tenths. -/
theorem formatFixed1_nonneg (q : Rat) (m : Nat) (h0 : 0 ≤ q)
    (h : roundHalfEven (q * 10) = (m : Int)) :
    formatFixed1 q = commaGroup (m / 10) ++ "." ++ toString (m % 10) := by
  unfold formatFixed1
  rw [abs_of_nonneg h0, h, if_neg (not_lt.mpr h0)]
  simp

/-- C3: if the record for `(areaName, targetYear)` is absent or its value
is null, `computeMetric` yields `currentValue = N/A`, `deltaLabel = n/a`
and no trend, regardless of the base-year value. -/
theorem C3_target_missing (crime_df : List CrimeRecord) (hood : String)
    (baseYear targetYear : Int)
    (h : lookupCrime crime_df targetYear hood = none ∨
         lookupCrime crime_df targetYear hood = some none) :
    computeMetric crime_df hood baseYear targetYear = ⟨"N/A", "n/a", "off"⟩ ∧
    trendOf (computeMetric crime_df hood baseYear targetYear) = Trend.none := by
  have hj : (lookupCrime crime_df targetYear hood).join = none := by
    rcases h with h | h <;> simp [h]
  have hm : computeMetric crime_df hood baseYear targetYear = ⟨"N/A", "n/a", "off"⟩ := by
    unfold computeMetric
    rw [hj]
  exact ⟨hm, by rw [hm]; rfl⟩

/-- Witness for C3 at the empty table. -/
theorem C3_witness :
    computeMetric [] "AreaB" 2023 2024 = ⟨"N/A", "n/a", "off"⟩ ∧
    trendOf (computeMetric [] "AreaB" 2023 2024) = Trend.none :=
  C3_target_missing [] "AreaB" 2023 2024 (Or.inl rfl)

/-- C1: if the target-year value is present and non-null but the base-year
value is absent, null, or zero, `computeMetric` yields
`deltaLabel = New Data` and no trend; the division is never taken, so no
infinity, NaN or silent zero can arise. -/
theorem C1_new_data (crime_df : List CrimeRecord) (hood : String)
    (baseYear targetYear : Int) (lc : Rat)
    (htarget : lookupCrime crime_df targetYear hood = some (some lc))
    (hbase : lookupCrime crime_df baseYear hood = none ∨
             lookupCrime crime_df baseYear hood = some none ∨
             lookupCrime crime_df baseYear hood = some (some 0)) :
    computeMetric crime_df hood baseYear targetYear =
      ⟨formatFixed0 lc, "New Data", "off"⟩ ∧
    trendOf (computeMetric crime_df hood baseYear targetYear) = Trend.none := by
  have hm : computeMetric crime_df hood baseYear targetYear =
      ⟨formatFixed0 lc, "New Data", "off"⟩ := by
    unfold computeMetric
    rcases hbase with h | h | h <;> rw [htarget, h] <;> simp
  exact ⟨hm, by rw [hm]; rfl⟩

/-- Witness for C1 at the spec example: table with only `(AreaB, 2024, 80)`
and no 2023 row. -/
theorem C1_witness :
    computeMetric [⟨"AreaB", some 2024, some 80, "Historical"⟩] "AreaB" 2023 2024 =
      ⟨formatFixed0 80, "New Data", "off"⟩ ∧
    trendOf (computeMetric [⟨"AreaB", some 2024, some 80, "Historical"⟩] "AreaB" 2023 2024) =
      Trend.none :=
  C1_new_data [⟨"AreaB", some 2024, some 80, "Historical"⟩] "AreaB" 2023 2024 80
    rfl (Or.inl rfl)

/-- C2: when both values are present, non-null, and the base is non-zero,
`computeMetric` computes `percentChange = (current - base) / base * 100`,
formats it to one decimal place with a percent suffix, and the trend is up
exactly when `percentChange > 0`, down otherwise (zero change included). -/
theorem C2_percent_change (crime_df : List CrimeRecord) (hood : String)
    (baseYear targetYear : Int) (lc fc : Rat)
    (htarget : lookupCrime crime_df targetYear hood = some (some lc))
    (hbase : lookupCrime crime_df baseYear hood = some (some fc))
    (hfc : fc ≠ 0) :
    computeMetric crime_df hood baseYear targetYear =
      ⟨formatFixed0 lc, formatFixed1 ((lc - fc) / fc * 100) ++ "%",
        if 0 < (lc - fc) / fc * 100 then "inverse" else "normal"⟩ ∧
    (trendOf (computeMetric crime_df hood baseYear targetYear) = Trend.up ↔
      0 < (lc - fc) / fc * 100) ∧
    (trendOf (computeMetric crime_df hood baseYear targetYear) = Trend.down ↔
      ¬ 0 < (lc - fc) / fc * 100) := by
  have hm : computeMetric crime_df hood baseYear targetYear =
      ⟨formatFixed0 lc, formatFixed1 ((lc - fc) / fc * 100) ++ "%",
        if 0 < (lc - fc) / fc * 100 then "inverse" else "normal"⟩ := by
    unfold computeMetric
    rw [htarget, hbase]
    simp [hfc]
  refine ⟨hm, ?_, ?_⟩ <;> rw [hm] <;>
    by_cases hpc : 0 < (lc - fc) / fc * 100 <;>
      simp [trendOf, hpc]

/-- Witness for C2 at the spec example: base 100 in 2023, target 150 in
2024 give `deltaLabel = 50.0%` and an upward trend. -/
theorem C2_witness :
    computeMetric
      [⟨"AreaA", some 2023, some 100, "Historical"⟩,
       ⟨"AreaA", some 2024, some 150, "Historical"⟩] "AreaA" 2023 2024 =
      ⟨"150", "50.0%", "inverse"⟩ ∧
    trendOf (computeMetric
      [⟨"AreaA", some 2023, some 100, "Historical"⟩,
       ⟨"AreaA", some 2024, some 150, "Historical"⟩] "AreaA" 2023 2024) =
      Trend.up := by
  have h := C2_percent_change
    [⟨"AreaA", some 2023, some 100, "Historical"⟩,
     ⟨"AreaA", some 2024, some 150, "Historical"⟩] "AreaA" 2023 2024 150 100
    rfl rfl (by norm_num)
  refine ⟨?_, h.2.1.mpr (by norm_num)⟩
  have e : ((150 : Rat) - 100) / 100 * 100 = 50 := by norm_num
  have hf0 : formatFixed0 (150 : Rat) = "150" := by
    rw [show ((150 : Rat)) = (((150 : Nat) : Rat)) by norm_num, formatFixed0_nat]
    rfl
  have hf1 : formatFixed1 (50 : Rat) = "50.0" := by
    rw [formatFixed1_nonneg 50 500 (by norm_num)
      (by rw [show ((50 : Rat) * 10) = (((500 : Int)) : Rat) by norm_num,
            roundHalfEven_intCast]; norm_num)]
    rfl
  rw [h.1, e, if_pos (show (0 : Rat) < 50 by norm_num), hf0, hf1]
  rfl

/-- C4: `filtered_crime_df` keeps exactly the rows whose area name is in
the selected set and whose year is a non-null value inside the inclusive
range; an empty name set yields the empty result without error. -/
theorem C4_filterRange (crime_df : List CrimeRecord) (y0 y1 : Int)
    (names : List String) (h : y0 ≤ y1) :
    (∀ r : CrimeRecord, r ∈ filtered_crime_df crime_df y0 y1 names ↔
       (r ∈ crime_df ∧ r.area_name ∈ names ∧
         ∃ y, r.year = some y ∧ y0 ≤ y ∧ y ≤ y1)) ∧
    (names = [] → filtered_crime_df crime_df y0 y1 names = []) := by
  constructor
  · intro r
    unfold filtered_crime_df
    rw [List.mem_filter]
    rcases hy : r.year with _ | y
    · simp [hy]
    · constructor
      · rintro ⟨hmem, hp⟩
        simp only [Bool.and_eq_true, decide_eq_true_eq] at hp
        exact ⟨hmem, List.elem_iff.mp hp.1, y, rfl, hp.2.2, hp.2.1⟩
      · rintro ⟨hmem, hn, y2, hy2, h0, h1⟩
        rw [Option.some.injEq] at hy2
        subst hy2
        simp only [Bool.and_eq_true, decide_eq_true_eq]
        exact ⟨hmem, List.elem_iff.mpr hn, h1, h0⟩
  · rintro rfl
    simp [filtered_crime_df]

/-- Witness for C4 at a concrete table and range. -/
theorem C4_witness :
    (∀ r : CrimeRecord,
       r ∈ filtered_crime_df
         [⟨"X", some 2014, some 1, "Historical"⟩,
          ⟨"Y", some 2020, some 2, "Historical"⟩] 2014 2015 ["X"] ↔
       (r ∈ [⟨"X", some 2014, some 1, "Historical"⟩,
             ⟨"Y", some 2020, some 2, "Historical"⟩] ∧
        r.area_name ∈ ["X"] ∧ ∃ y, r.year = some y ∧ 2014 ≤ y ∧ y ≤ 2015)) ∧
    ((["X"] : List String) = [] →
      filtered_crime_df
        [⟨"X", some 2014, some 1, "Historical"⟩,
         ⟨"Y", some 2020, some 2, "Historical"⟩] 2014 2015 ["X"] = []) :=
  C4_filterRange
    [⟨"X", some 2014, some 1, "Historical"⟩,
     ⟨"Y", some 2020, some 2, "Historical"⟩] 2014 2015 ["X"] (by decide)

/-- Every record produced by the derivation pass carries a non-null year
and the year-derived label. -/
theorem mapDerive_mem (l : List RawRow) :
    ∀ rows : List CrimeRecord, mapDerive l = Except.ok rows →
      ∀ r ∈ rows, ∃ y : Int, r.year = some y ∧
        r.data_type = (if y = 2025 then "Forecast" else "Historical") := by
  induction l with
  | nil =>
    intro rows h r hr
    rw [show mapDerive [] = Except.ok [] from rfl] at h
    cases h
    simp at hr
  | cons a as ih =>
    intro rows h r hr
    rw [mapDerive] at h
    rcases ha : a.year with _ | y
    · rw [ha] at h
      simp [deriveDataType] at h
    · rw [ha] at h
      simp only [deriveDataType] at h
      rcases hrest : mapDerive as with e2 | rest
      · rw [hrest] at h
        exact absurd h (by simp)
      · rw [hrest] at h
        simp only [Except.ok.injEq] at h
        subst h
        rcases List.mem_cons.mp hr with rfl | hr2
        · exact ⟨y, rfl, rfl⟩
        · exact ih rest hrest r hr2

/-- C6: on a missing input file, `get_crime_data` returns an empty table
and reports the failure through `st.error` rather than an unhandled fault,
and the module-level check `if crime_df.empty: st.stop()` halts all
downstream rendering. -/
theorem C6_missing_file :
    get_crime_data none = LoadResult.ok [] true ∧
    get_crime_data none ≠ LoadResult.fault ∧
    appPhase (get_crime_data none) = Phase.halted := by
  refine ⟨rfl, ?_, rfl⟩
  intro h
  exact LoadResult.noConfusion h

/-- C9: when the input file already contains a `Data_Type` column, the
loader keeps every retained row's label exactly as it appeared in the
input, even when it disagrees with the year rule: the derivation of lines
41-42 is skipped. -/
theorem C9_preserve_labels (t : InputTable) (h : t.hasDataType = true) :
    ∀ tbl e, get_crime_data (some t) = LoadResult.ok tbl e →
      tbl.map (fun r => r.data_type) =
        (t.rows.filter (fun r => r.total_crimes.isSome)).map (fun r => r.data_type) := by
  intro tbl e hl
  simp only [get_crime_data, h, if_true] at hl
  rcases hl with ⟨rfl, rfl⟩
  rw [List.map_map]
  rfl

/-- Witness for C9: a 2024 row labelled `Forecast` in the input keeps that
label in the loaded table although the year rule would say `Historical`. -/
theorem C9_witness :
    ([(⟨"X", some 2024, some 1, "Forecast"⟩ : CrimeRecord)].map (fun r => r.data_type)) =
      (([⟨"X", some 2024, some 1, "Forecast"⟩] : List RawRow).filter
        (fun r => r.total_crimes.isSome)).map (fun r => r.data_type) :=
  C9_preserve_labels ⟨true, [⟨"X", some 2024, some 1, "Forecast"⟩]⟩ rfl
    [⟨"X", some 2024, some 1, "Forecast"⟩] false rfl

/-- C10 counterexample: with no `Data_Type` column, an input row whose
`Total_Crimes` is present but whose `Year` is missing or unparsable
survives the `dropna` and then crashes the `apply` of line 42
(`if pd.NA == 2025` raises `TypeError`), so the load faults instead of
retaining the row with a null year. -/
theorem C10_counterexample :
    get_crime_data (some ⟨false, [⟨"X", none, some 5, "Historical"⟩]⟩) =
      LoadResult.fault := rfl

/-- C10 amended: when the input file has a `Data_Type` column (so the
derivation of lines 41-42 is skipped), the loader drops exactly the rows
whose `Total_Crimes` is null, and every row with a non-null `Total_Crimes`
is retained unchanged, a missing or unparsable year staying null. -/
theorem C10_drop_nulls (t : InputTable) (h : t.hasDataType = true) :
    get_crime_data (some t) =
      LoadResult.ok ((t.rows.filter (fun r => r.total_crimes.isSome)).map
        (fun r => ⟨r.area_name, r.year, r.total_crimes, r.data_type⟩)) false ∧
    ∀ raw ∈ t.rows, raw.total_crimes.isSome →
      (⟨raw.area_name, raw.year, raw.total_crimes, raw.data_type⟩ : CrimeRecord) ∈
        (t.rows.filter (fun r => r.total_crimes.isSome)).map
          (fun r => ⟨r.area_name, r.year, r.total_crimes, r.data_type⟩) := by
  constructor
  · simp only [get_crime_data, h, if_true]
  · intro raw hmem hsome
    exact List.mem_map_of_mem _ (List.mem_filter.mpr ⟨hmem, hsome⟩)

/-- Witness for C10: a null-year row with a present measure is retained
with its null year when the `Data_Type` column exists. -/
theorem C10_witness :
    get_crime_data (some ⟨true, [⟨"X", none, some 5, "Historical"⟩]⟩) =
      LoadResult.ok [⟨"X", none, some 5, "Historical"⟩] false := by
  rw [(C10_drop_nulls ⟨true, [⟨"X", none, some 5, "Historical"⟩]⟩ rfl).1]
  rfl

/-- C5 counterexample: a pre-existing `Data_Type` column is passed through
by the loader, so a loaded row can be labelled `Forecast` although its
year is 2024, refuting the claim for the table produced by the load. -/
theorem C5_counterexample :
    get_crime_data (some ⟨true, [⟨"X", some 2024, some 1, "Forecast"⟩]⟩) =
      LoadResult.ok [⟨"X", some 2024, some 1, "Forecast"⟩] false ∧
    (⟨"X", some 2024, some 1, "Forecast"⟩ : CrimeRecord).data_type = "Forecast" ∧
    (⟨"X", some 2024, some 1, "Forecast"⟩ : CrimeRecord).year ≠ some 2025 := by
  refine ⟨rfl, rfl, by simp⟩

/-- C5 amended: when the input file has no `data_type` column and the load
succeeds, every loaded row is labelled `Forecast` exactly when its year is
the forecast year 2025, and `Historical` exactly otherwise. -/
theorem C5_forecast_iff (t : InputTable) (h : t.hasDataType = false)
    (tbl : List CrimeRecord) (e : Bool)
    (hl : get_crime_data (some t) = LoadResult.ok tbl e) :
    ∀ r ∈ tbl, (r.data_type = "Forecast" ↔ r.year = some (2025 : Int)) ∧
      (r.data_type = "Historical" ↔ r.year ≠ some (2025 : Int)) := by
  intro r hr
  simp only [get_crime_data, h, Bool.false_eq_true, if_false] at hl
  rcases hm : mapDerive (t.rows.filter fun r => r.total_crimes.isSome) with e2 | rows
  · rw [hm] at hl
    exact absurd hl (by simp)
  · rw [hm] at hl
    simp only [LoadResult.ok.injEq] at hl
    rcases hl with ⟨rfl, rfl⟩
    obtain ⟨y, hy, hd⟩ := mapDerive_mem _ rows hm r hr
    by_cases h25 : y = 2025
    · subst h25
      rw [if_pos rfl] at hd
      simp [hd, hy]
    · rw [if_neg h25] at hd
      constructor
      · rw [hd, hy]
        constructor
        · intro hfalse
          exact absurd hfalse (by simp)
        · intro hsome
          exact absurd (Option.some.injEq _ _ ▸ hsome) h25
      · rw [hd, hy]
        simp [h25]

/-- Witness for C5: with no `data_type` column, a 2025 row comes out
labelled `Forecast`. -/
theorem C5_witness :
    (⟨"X", some 2025, some 3, "Forecast"⟩ : CrimeRecord).data_type = "Forecast" :=
  ((C5_forecast_iff ⟨false, [⟨"X", some 2025, some 3, ""⟩]⟩ rfl
    [⟨"X", some 2025, some 3, "Forecast"⟩] false rfl
    ⟨"X", some 2025, some 3, "Forecast"⟩ (by simp)).1).mpr rfl

/-- C8 counterexample: with `selected_hoods = [A]` but the bar chart set to
`B`, a metric card is rendered for `B`, which is not a selected
neighbourhood, so the card set is not the user-selected set. -/
theorem C8_counterexample :
    "B" ∈ comparison_hoods ["A"] "B" ∧ "B" ∉ (["A"] : List String) := by
  constructor
  · unfold comparison_hoods
    rw [List.mem_insertionSort]
    simp
  · simp

/-- C8 amended: the dashboard renders exactly one metric card per area in
the union of the selected neighbourhoods and the single bar-chart
neighbourhood; this equals the selected set exactly when the bar-chart
choice is among the selected ones (as its default is). -/
theorem C8_cards (selected_hoods : List String) (bar_selected_hood : String)
    (hne : selected_hoods ≠ []) :
    (∀ hood, hood ∈ comparison_hoods selected_hoods bar_selected_hood ↔
      (hood ∈ selected_hoods ∨ hood = bar_selected_hood)) ∧
    (comparison_hoods selected_hoods bar_selected_hood).Nodup ∧
    (bar_selected_hood ∈ selected_hoods →
      ∀ hood, hood ∈ comparison_hoods selected_hoods bar_selected_hood ↔
        hood ∈ selected_hoods) := by
  have hmem : ∀ hood, hood ∈ comparison_hoods selected_hoods bar_selected_hood ↔
      (hood ∈ selected_hoods ∨ hood = bar_selected_hood) := by
    intro hood
    unfold comparison_hoods
    rw [List.mem_insertionSort]
    simp
  refine ⟨hmem, ?_, ?_⟩
  · exact ((List.perm_insertionSort _ _).nodup_iff).mpr (List.nodup_dedup _)
  · intro hbar hood
    rw [hmem hood]
    constructor
    · rintro (hs | rfl)
      · exact hs
      · exact hbar
    · exact Or.inl

/-- Witness for C8 at a concrete nonempty selection. -/
theorem C8_witness :
    (∀ hood, hood ∈ comparison_hoods ["A"] "A" ↔
      (hood ∈ ["A"] ∨ hood = "A")) ∧
    (comparison_hoods ["A"] "A").Nodup ∧
    ("A" ∈ (["A"] : List String) →
      ∀ hood, hood ∈ comparison_hoods ["A"] "A" ↔ hood ∈ ["A"]) :=
  C8_cards ["A"] "A" (by simp)

/-- Modelled from the spec: the wide-to-long reshape of section 6 (columns
`AREA_NAME, year_1, ..., year_k` becoming one row per `(area_name, year)`
pair) is described for the loader but is absent from
`src/streamlit_app.py`, which reads the already-long CSV; it belongs to a
repository revision not included under `src/`.  `years` are the year
column headers in order and each row is an area name with its per-year
values in the same order. -/
def reshapeWide (years : List Int) (rows : List (String × List Rat)) :
    List (String × Int × Rat) :=
  (rows.map (fun r => (years.zip r.2).map (fun p => (r.1, p.1, p.2)))).flatten

/-- C7: the reshape emits one long row per (area, year) pair, and on the
spec example `AREA_NAME,2014,2015` with row `(X,10,20)` it produces
`(X,2014,10)` and `(X,2015,20)`. -/
theorem C7_reshape :
    (∀ (years : List Int) (rows : List (String × List Rat)),
      (∀ p ∈ rows, p.2.length = years.length) →
      (reshapeWide years rows).length = rows.length * years.length) ∧
    reshapeWide [2014, 2015] [("X", [10, 20])] =
      [("X", 2014, 10), ("X", 2015, 20)] := by
  constructor
  · intro years rows hlen
    induction rows with
    | nil => simp [reshapeWide]
    | cons p ps ih =>
      have hp : p.2.length = years.length := hlen p (List.mem_cons_self p ps)
      have hps := ih (fun q hq => hlen q (List.mem_cons_of_mem p hq))
      have step : reshapeWide years (p :: ps) =
          ((years.zip p.2).map (fun q => (p.1, q.1, q.2))) ++ reshapeWide years ps := by
        simp [reshapeWide]
      rw [step, List.length_append, List.length_map, List.length_zip, hp, min_self,
        hps, List.length_cons]
      ring
  · rfl

/-- Witness for C7: the spec example has one area and two year columns,
hence two long rows. -/
theorem C7_witness :
    (reshapeWide [2014, 2015] [("X", [10, 20])]).length = 1 * 2 :=
  C7_reshape.1 [2014, 2015] [("X", [10, 20])] (by simp)
